import Mathlib

/-!
Verification of the platform detector in
`ai-resources/skills/ai-resource-manager/scripts/detect_platform.py`.

The script reads two ambient strings from the execution environment,
`platform.system()` and `platform.machine()`; the embedding makes them
explicit parameters of `detect_platform`.  The Python string operations
the script uses (`str.lower`, membership in a literal list, f-string
concatenation, `print`) are modelled on Lean `String`s.
-/

/-- Model of Python `str.lower` as used by the script: case folding
applied character by character (the script only ever compares against
ASCII tokens, so ASCII folding is the relevant behaviour). -/
def pyLower (s : String) : String := ⟨s.data.map Char.toLower⟩

/-- The architecture rule of the Linux branch (detect_platform.py,
line 13): `"amd64" if machine in ["x86_64", "amd64"] else "arm64"`. -/
def linuxArchRule (machine : String) : String :=
  if machine = "x86_64" ∨ machine = "amd64" then "amd64" else "arm64"

/-- The architecture rule of the Darwin branch (detect_platform.py,
line 16): `"arm64" if machine == "arm64" else "amd64"`. -/
def darwinArchRule (machine : String) : String :=
  if machine = "arm64" then "arm64" else "amd64"

/-- The architecture rule of the Windows branch (detect_platform.py,
line 19): `"amd64" if machine in ["x86_64", "amd64"] else "arm64"`. -/
def windowsArchRule (machine : String) : String :=
  if machine = "x86_64" ∨ machine = "amd64" then "amd64" else "arm64"

/-- Embedding of `detect_platform` (detect_platform.py, lines 6-22).
The two parameters are the raw `platform.system()` and
`platform.machine()` strings; lines 8-9 lowercase them, lines 12-22 map
them to the aimgr release naming convention. -/
def detect_platform (system machineRaw : String) : String :=
  let os_name := pyLower system
  let machine := pyLower machineRaw
  if os_name = "linux" then
    "linux_" ++ linuxArchRule machine
  else if os_name = "darwin" then
    "darwin_" ++ darwinArchRule machine
  else if os_name = "windows" then
    "windows_" ++ windowsArchRule machine
  else
    "unknown"

/-- Model of Python `print`: the text written to standard output is the
argument followed by a single newline. -/
def pyPrint (s : String) : String := s ++ "\n"

/-- Standard output of the `__main__` entry point (detect_platform.py,
lines 25-26): `print(detect_platform())`. -/
def mainStdout (system machineRaw : String) : String :=
  pyPrint (detect_platform system machineRaw)

/-- Exit status of the entry point: the script body runs to completion
with no raise and no explicit `sys.exit`, so the interpreter exits 0. -/
def mainExitCode (system machineRaw : String) : Nat := 0

/-- The OS token of an identifier string: the characters before the
first underscore (the whole string when there is none). -/
def osToken (s : String) : String := ⟨s.data.takeWhile (fun c => c != '_')⟩

/-! ### Helper lemmas -/

/-- `Char.ofNat` at a valid code point round-trips through `toNat`. -/
theorem char_toNat_ofNat (n : Nat) (hv : n.isValidChar) :
    (Char.ofNat n).toNat = n := by
  rw [Char.ofNat, dif_pos hv]
  simp [Char.ofNatAux, Char.toNat, UInt32.toNat]

/-- ASCII case folding of a character is idempotent. -/
theorem char_toLower_toLower (c : Char) :
    Char.toLower (Char.toLower c) = Char.toLower c := by
  simp only [Char.toLower]
  by_cases h : 65 ≤ c.toNat ∧ c.toNat ≤ 90
  · rw [if_pos h]
    have hv : (c.toNat + 32).isValidChar := by left; omega
    rw [if_neg]
    rw [char_toNat_ofNat _ hv]
    omega
  · rw [if_neg h, if_neg h]

/-- Lowercasing a string is idempotent. -/
theorem pyLower_idem (s : String) : pyLower (pyLower s) = pyLower s := by
  simp only [pyLower]
  congr 1
  rw [List.map_map]
  exact List.map_congr_left fun c _ => char_toLower_toLower c

/-- Every output of `detect_platform` is one of seven strings. -/
theorem detect_platform_output_cases (system machineRaw : String) :
    detect_platform system machineRaw ∈
      ["linux_amd64", "linux_arm64", "darwin_amd64", "darwin_arm64",
       "windows_amd64", "windows_arm64", "unknown"] := by
  simp only [detect_platform, linuxArchRule, darwinArchRule, windowsArchRule]
  split_ifs <;> decide

/-- No output of `detect_platform` contains a newline character. -/
theorem detect_platform_no_newline (system machineRaw : String) :
    '\n' ∉ (detect_platform system machineRaw).data := by
  have h := detect_platform_output_cases system machineRaw
  simp only [List.mem_cons, List.not_mem_nil, or_false] at h
  rcases h with h | h | h | h | h | h | h <;> rw [h] <;> decide

/-! ### Claims -/

/-- C1: For every pair of input strings, `detect_platform` returns one of
the seven strings `linux_amd64`, `linux_arm64`, `darwin_amd64`,
`darwin_arm64`, `windows_amd64`, `windows_arm64`, `unknown`. -/
theorem C1_output_is_one_of_seven (system machineRaw : String) :
    detect_platform system machineRaw = "linux_amd64" ∨
    detect_platform system machineRaw = "linux_arm64" ∨
    detect_platform system machineRaw = "darwin_amd64" ∨
    detect_platform system machineRaw = "darwin_arm64" ∨
    detect_platform system machineRaw = "windows_amd64" ∨
    detect_platform system machineRaw = "windows_arm64" ∨
    detect_platform system machineRaw = "unknown" := by
  have h := detect_platform_output_cases system machineRaw
  simpa only [List.mem_cons, List.not_mem_nil, or_false] using h

/-- C2: When the lowercased OS name is `linux`, the result is
`linux_amd64` if the lowercased machine string is `x86_64` or `amd64`,
and `linux_arm64` for every other machine string. -/
theorem C2_linux_branch (system machineRaw : String)
    (h : pyLower system = "linux") :
    detect_platform system machineRaw =
      (if pyLower machineRaw = "x86_64" ∨ pyLower machineRaw = "amd64"
       then "linux_amd64" else "linux_arm64") := by
  simp only [detect_platform, linuxArchRule, h, if_pos]
  split_ifs <;> rfl

/-- Witness for C2 at the concrete input `("Linux", "aarch64")`. -/
theorem C2_linux_branch_witness :
    detect_platform "Linux" "aarch64" =
      (if pyLower "aarch64" = "x86_64" ∨ pyLower "aarch64" = "amd64"
       then "linux_amd64" else "linux_arm64") :=
  C2_linux_branch "Linux" "aarch64" (by decide)

/-- C3: When the lowercased OS name is `darwin`, the result is
`darwin_arm64` if the lowercased machine string is exactly `arm64`, and
`darwin_amd64` for every other machine string. -/
theorem C3_darwin_branch (system machineRaw : String)
    (h : pyLower system = "darwin") :
    detect_platform system machineRaw =
      (if pyLower machineRaw = "arm64"
       then "darwin_arm64" else "darwin_amd64") := by
  simp only [detect_platform, darwinArchRule, h]
  rw [if_neg (show ("darwin" : String) ≠ "linux" by decide)]
  rw [if_pos trivial]
  split_ifs <;> rfl

/-- Witness for C3 at the concrete input `("Darwin", "x86_64")`. -/
theorem C3_darwin_branch_witness :
    detect_platform "Darwin" "x86_64" =
      (if pyLower "x86_64" = "arm64"
       then "darwin_arm64" else "darwin_amd64") :=
  C3_darwin_branch "Darwin" "x86_64" (by decide)

/-- C4: The Windows branch applies exactly the same architecture rule as
the Linux branch, and the result on a Windows system is `windows_`
followed by that shared arch token. -/
theorem C4_windows_same_rule_as_linux (system machineRaw : String)
    (h : pyLower system = "windows") :
    windowsArchRule (pyLower machineRaw) = linuxArchRule (pyLower machineRaw) ∧
    detect_platform system machineRaw =
      "windows_" ++ linuxArchRule (pyLower machineRaw) := by
  refine ⟨rfl, ?_⟩
  simp only [detect_platform, h]
  rw [if_neg (show ("windows" : String) ≠ "linux" by decide)]
  rw [if_neg (show ("windows" : String) ≠ "darwin" by decide)]
  rw [if_pos trivial]
  rfl

/-- Witness for C4 at the concrete input `("Windows", "i686")`. -/
theorem C4_windows_same_rule_as_linux_witness :
    windowsArchRule (pyLower "i686") = linuxArchRule (pyLower "i686") ∧
    detect_platform "Windows" "i686" =
      "windows_" ++ linuxArchRule (pyLower "i686") :=
  C4_windows_same_rule_as_linux "Windows" "i686" (by decide)

/-- C5: When the lowercased OS name is none of `linux`, `darwin`,
`windows`, the result is the literal string `unknown` for every machine
string. -/
theorem C5_unknown_os (system machineRaw : String)
    (h1 : pyLower system ≠ "linux") (h2 : pyLower system ≠ "darwin")
    (h3 : pyLower system ≠ "windows") :
    detect_platform system machineRaw = "unknown" := by
  simp only [detect_platform]
  rw [if_neg h1, if_neg h2, if_neg h3]

/-- Witness for C5 at the concrete input `("freebsd", "x86_64")`. -/
theorem C5_unknown_os_witness :
    detect_platform "freebsd" "x86_64" = "unknown" :=
  C5_unknown_os "freebsd" "x86_64" (by decide) (by decide) (by decide)

/-- C6: `detect_platform` is a total function over all string inputs:
it is accepted by Lean as a terminating, exception-free function into
`String`, so every pair of inputs produces a result string. -/
theorem C6_total (system machineRaw : String) :
    ∃ r : String, detect_platform system machineRaw = r :=
  ⟨detect_platform system machineRaw, rfl⟩

/-- C7: Matching is case-insensitive via lowercase normalization:
running the detector on pre-lowercased inputs gives the same result,
and in particular `("windows", "AMD64")` yields `windows_amd64`. -/
theorem C7_lowercase_normalization (system machineRaw : String) :
    detect_platform system machineRaw =
      detect_platform (pyLower system) (pyLower machineRaw) ∧
    detect_platform "windows" "AMD64" = "windows_amd64" := by
  constructor
  · simp only [detect_platform, pyLower_idem]
  · decide

/-- C8: As a command-line entry point the program writes to standard
output exactly the string returned by `detect_platform` followed by a
single trailing newline (the returned string itself contains no
newline, so this is exactly one line), and exits with status 0. -/
theorem C8_main_output (system machineRaw : String) :
    mainStdout system machineRaw = detect_platform system machineRaw ++ "\n" ∧
    '\n' ∉ (detect_platform system machineRaw).data ∧
    mainExitCode system machineRaw = 0 :=
  ⟨rfl, detect_platform_no_newline system machineRaw, rfl⟩

/-- C9: The detector is deterministic: two invocations on equal pairs
of environment-reported inputs return identical output strings. -/
theorem C9_deterministic (s1 s2 m1 m2 : String)
    (hs : s1 = s2) (hm : m1 = m2) :
    detect_platform s1 m1 = detect_platform s2 m2 := by
  rw [hs, hm]

/-- Witness for C9 at the concrete input `("linux", "x86_64")` twice. -/
theorem C9_deterministic_witness :
    detect_platform "linux" "x86_64" = detect_platform "linux" "x86_64" :=
  C9_deterministic "linux" "linux" "x86_64" "x86_64" rfl rfl

/-- C10: The machine input never influences the OS token of the result;
in particular, for an unrecognized OS the result is `unknown` no matter
the architecture input. -/
theorem C10_machine_independent_os_token (system m1 m2 : String) :
    osToken (detect_platform system m1) = osToken (detect_platform system m2) ∧
    (pyLower system ≠ "linux" → pyLower system ≠ "darwin" →
      pyLower system ≠ "windows" → detect_platform system m1 = "unknown") := by
  constructor
  · simp only [detect_platform, linuxArchRule, darwinArchRule, windowsArchRule]
    split_ifs <;> decide
  · intro h1 h2 h3
    simp only [detect_platform]
    rw [if_neg h1, if_neg h2, if_neg h3]

/-- Witness for C10 at the concrete inputs `("freebsd", "x86_64")` and
`("freebsd", "sparc")`. -/
theorem C10_machine_independent_os_token_witness :
    osToken (detect_platform "freebsd" "x86_64") =
      osToken (detect_platform "freebsd" "sparc") ∧
    detect_platform "freebsd" "x86_64" = "unknown" := by
  obtain ⟨h1, h2⟩ :=
    C10_machine_independent_os_token "freebsd" "x86_64" "sparc"
  exact ⟨h1, h2 (by decide) (by decide) (by decide)⟩
